import Mathlib

/-!
Verification of the `roadtemplates` service skeleton.

The source is a single TypeScript class:

```
export class TemplateService {
  private config: TemplateConfig | null = null;
  async init(config: TemplateConfig): Promise<void> {
    this.config = config;
  }
  async health(): Promise<boolean> {
    return this.config !== null;
  }
}
```

with the data types

```
export interface TemplateConfig { endpoint: string; timeout: number; }
export interface TemplateResponse<T> { success: boolean; data?: T; error?: string; }
```

We embed the mutable class as explicit state passing: each method becomes a
function from the handle state (and arguments) to the new state and/or the
returned value.  The `async` methods perform no suspension, I/O or throwing,
so their `Promise` results are modelled by plain values, with an additional
`Except`-valued embedding (`initE`, `healthE`) used to express that the
error branch is unreachable.
-/

/-- The `TemplateConfig` interface from `src/types.ts`: an endpoint string and
a timeout number (always an integer in the source and its tests). -/
structure TemplateConfig where
  endpoint : String
  timeout : Int
deriving DecidableEq, Repr

/-- The `TemplateResponse<T>` interface from `src/types.ts` (declared but
unused by the core logic). -/
structure TemplateResponse (T : Type) where
  success : Bool
  data : Option T
  error : Option String
deriving Repr

/-- The state of a `TemplateService` instance: the single private field
`config: TemplateConfig | null`, with `null` modelled as `none`. -/
structure TemplateService where
  config : Option TemplateConfig
deriving DecidableEq, Repr

/-- A freshly constructed `TemplateService`: the field initializer sets
`config = null`. -/
def newService : TemplateService := { config := none }

/-- The method `init(config)`: stores the given configuration
(`this.config = config`) and returns no value. -/
def TemplateService.init (s : TemplateService) (c : TemplateConfig) :
    TemplateService :=
  { s with config := some c }

/-- The method `health()`: returns `this.config !== null`.  The body only
reads the field, so the state is unchanged and the method is a function of
the state alone. -/
def TemplateService.health (s : TemplateService) : Bool :=
  s.config.isSome

/-- The `Except`-valued embedding of `init`: the body contains no `throw`,
so the promise always resolves and the result is always `.ok`. -/
def TemplateService.initE (s : TemplateService) (c : TemplateConfig) :
    Except String TemplateService :=
  .ok (s.init c)

/-- The `Except`-valued embedding of `health`: the body contains no `throw`,
so the promise always resolves and the result is always `.ok`. -/
def TemplateService.healthE (s : TemplateService) : Except String Bool :=
  .ok s.health

/-- The operations a caller can perform on a handle. -/
inductive Op where
  | init (c : TemplateConfig)
  | health
deriving DecidableEq, Repr

/-- Running one operation on a handle: the post-state, paired with the
boolean returned by `health` (`init` returns `Promise<void>`, hence
`none`). -/
def runOp (s : TemplateService) : Op → TemplateService × Option Bool
  | .init c => (s.init c, none)
  | .health => (s, some s.health)

/-- Running a sequence of operations, threading the state. -/
def runOps (s : TemplateService) (ops : List Op) : TemplateService :=
  ops.foldl (fun s op => (runOp s op).1) s

/-- Helper: a handle observed right after init holds some configuration, so
health reports true. -/
theorem health_after_init (s : TemplateService) (c : TemplateConfig) :
    (s.init c).health = true := by
  simp [TemplateService.init, TemplateService.health]

/-- C1: for every Configuration value c and every handle state s, calling
init(c) and then health() returns true. -/
theorem init_then_health (s : TemplateService) (c : TemplateConfig) :
    (s.init c).health = true :=
  health_after_init s c

/-- C2: on a freshly constructed Service Handle, before any call to init,
health() returns false. -/
theorem health_of_new : newService.health = false := by
  simp [newService, TemplateService.health]

/-- C3: once a handle reports health() = true, no sequence of init and
health operations ever makes health() return false again. -/
theorem health_persists (s : TemplateService) (ops : List Op)
    (h : s.health = true) : (runOps s ops).health = true := by
  induction ops generalizing s with
  | nil => exact h
  | cons op ops ih =>
    cases op with
    | init c =>
      exact ih (s.init c) (health_after_init s c)
    | health =>
      exact ih s h

/-- Witness for C3 at a concrete handle and operation sequence. -/
theorem health_persists_witness :
    (newService.init ⟨"http://localhost", 5000⟩).health = true ∧
      (runOps (newService.init ⟨"http://localhost", 5000⟩)
        [Op.health, Op.init ⟨"", 0⟩, Op.health]).health = true :=
  ⟨by decide,
   health_persists (newService.init ⟨"http://localhost", 5000⟩)
     [Op.health, Op.init ⟨"", 0⟩, Op.health] (by decide)⟩

/-- C4 counterexample: a handle holding configuration ⟨"a", 1⟩ on which the
operation init(⟨"b", 2⟩) is applied no longer holds ⟨"a", 1⟩, so init with
a different argument does replace the held configuration. -/
theorem init_replaces_config :
    (newService.init ⟨"a", 1⟩).config = some ⟨"a", 1⟩ ∧
      (runOp (newService.init ⟨"a", 1⟩) (Op.init ⟨"b", 2⟩)).1.config ≠
        some ⟨"a", 1⟩ := by
  constructor
  · rfl
  · decide

/-- C4 (amended): for every state holding configuration c, applying health
leaves the held configuration equal to c, while applying init(c') replaces
it with c'; only init can change the held configuration. -/
theorem held_config_frame (s : TemplateService) (c : TemplateConfig)
    (h : s.config = some c) :
    (runOp s Op.health).1.config = some c ∧
      ∀ c', (runOp s (Op.init c')).1.config = some c' := by
  refine ⟨?_, fun c' => rfl⟩
  simpa [runOp] using h

/-- Witness for the amended C4 at a concrete handle. -/
theorem held_config_frame_witness :
    (newService.init ⟨"e", 7⟩).config = some ⟨"e", 7⟩ ∧
      (runOp (newService.init ⟨"e", 7⟩) Op.health).1.config = some ⟨"e", 7⟩ ∧
      (runOp (newService.init ⟨"e", 7⟩) (Op.init ⟨"f", 8⟩)).1.config =
        some ⟨"f", 8⟩ :=
  have h := held_config_frame (newService.init ⟨"e", 7⟩) ⟨"e", 7⟩ rfl
  ⟨rfl, h.1, h.2 ⟨"f", 8⟩⟩

/-- C5: init(c) stores the given Configuration value as-is: afterwards the
handle holds a configuration with exactly the same endpoint string and the
same timeout number, for every c. -/
theorem init_stores_as_is (s : TemplateService) (c : TemplateConfig) :
    (s.init c).config = some c ∧
      ∃ c0, (s.init c).config = some c0 ∧
        c0.endpoint = c.endpoint ∧ c0.timeout = c.timeout :=
  ⟨rfl, c, rfl, rfl, rfl⟩

/-- C6: calling init twice with two different Configuration values raises no
error (both Except-valued calls return .ok) and health() returns true after
the second call. -/
theorem double_init_ok (s : TemplateService) (c1 c2 : TemplateConfig)
    (h : c1 ≠ c2) :
    (s.initE c1).isOk = true ∧ ((s.init c1).initE c2).isOk = true ∧
      ((s.init c1).init c2).health = true :=
  ⟨rfl, rfl, health_after_init (s.init c1) c2⟩

/-- Witness for C6 at two concrete distinct configurations. -/
theorem double_init_ok_witness :
    (⟨"a", 1⟩ : TemplateConfig) ≠ ⟨"b", 2⟩ ∧
      (newService.initE ⟨"a", 1⟩).isOk = true ∧
      ((newService.init ⟨"a", 1⟩).initE ⟨"b", 2⟩).isOk = true ∧
      ((newService.init ⟨"a", 1⟩).init ⟨"b", 2⟩).health = true :=
  ⟨by decide, double_init_ok newService ⟨"a", 1⟩ ⟨"b", 2⟩ (by decide)⟩

/-- C7: degenerate Configuration values are accepted: after constructing a
handle and calling init with endpoint "" and timeout 0, health() returns
true. -/
theorem degenerate_config_accepted :
    (newService.init ⟨"", 0⟩).health = true := by
  decide

/-- C8: neither init nor health can fail: in the Except-valued embedding the
error branch is unreachable for every handle state and every argument. -/
theorem no_error_branch (s : TemplateService) (c : TemplateConfig) :
    (∃ s', s.initE c = .ok s') ∧ (∃ b, s.healthE = .ok b) ∧
      (∀ e, s.initE c ≠ .error e) ∧ (∀ e, s.healthE ≠ .error e) := by
  refine ⟨⟨s.init c, rfl⟩, ⟨s.health, rfl⟩, ?_, ?_⟩ <;> intro e h <;>
    simp [TemplateService.initE, TemplateService.healthE] at h

/-- C9: health() is a pure read: running it leaves the entire handle state,
in particular the config field, unchanged. -/
theorem health_pure_read (s : TemplateService) :
    (runOp s Op.health).1 = s ∧ (runOp s Op.health).1.config = s.config :=
  ⟨rfl, rfl⟩

/-- C10: a second call to init overwrites the stored configuration with its
argument: after init(c1) then init(c2) the held configuration equals c2. -/
theorem second_init_overwrites (s : TemplateService)
    (c1 c2 : TemplateConfig) :
    ((s.init c1).init c2).config = some c2 :=
  rfl
